import Mathlib

/-!
Shallow embedding of `deepchem/models/tensorflow_models/fcnet.py`
(TensorflowMultiTaskClassifier and TensorflowMultiTaskRegressor).

Conventions of the embedding:
* numpy float64 scalars are modelled as rationals (`Rat`); the file only
  ever compares, copies and marshals these values, it never does float
  arithmetic whose rounding could matter;
* numpy arrays of rank 0..3 are modelled by the inductive `NDArr`;
* the TensorFlow graph under construction is modelled by the inductive
  `Tensor`, a symbolic AST: `build` only assembles graph nodes, it does
  not execute them;
* Python `assert` failures and `raise ValueError` are modelled by
  `Except String`;
* the Python dict built by `construct_feed_dict` is modelled as an
  association list in insertion order, keyed by the structured type
  `FeedKey` (the source keys are the strings "mol_features",
  "labels_%d" % task, "weights_%d" % task and "valid"; the rendering
  of the task index is injective, so the structured key is faithful).
-/

namespace Fcnet

/-- Scalar values (numpy float64 entries), modelled as rationals. -/
abbrev Scalar := Rat

/-- A numpy ndarray of rank 0, 1, 2 or 3 (the only ranks this file handles). -/
inductive NDArr where
  | d0 (x : Scalar)
  | d1 (xs : List Scalar)
  | d2 (xss : List (List Scalar))
  | d3 (xsss : List (List (List Scalar)))
deriving DecidableEq, Repr

namespace NDArr

/-- Number of axes of the array (numpy `.ndim`). -/
def ndim : NDArr → Nat
  | d0 _ => 0
  | d1 _ => 1
  | d2 _ => 2
  | d3 _ => 3

end NDArr

/-- Transpose of a rectangular list-of-lists (swap the two leading axes). -/
def transposeLL {α : Type} (xss : List (List α)) : List (List α) :=
  (List.range (xss.headD []).length).map (fun j => xss.filterMap (fun row => row[j]?))

namespace NDArr

/-- Transpose with axes `(1, 0)` (numpy `.transpose((1,0))`); defined on
rank-2 arrays, `none` models numpy's axes-mismatch error otherwise. -/
def transpose10 : NDArr → Option NDArr
  | d2 xss => some (d2 (transposeLL xss))
  | _ => none

/-- Transpose with axes `(1, 0, 2)` (numpy `.transpose((1,0,2))`), i.e. a swap
of the two leading axes of a rank-3 array; `none` on any other rank. -/
def transpose102 : NDArr → Option NDArr
  | d3 x => some (d3 (transposeLL x))
  | _ => none

/-- Model of `np.squeeze`: remove every axis of extent 1. -/
def squeeze : NDArr → NDArr
  | d0 x => d0 x
  | d1 xs => if xs.length = 1 then d0 (xs.headD 0) else d1 xs
  | d2 xss =>
      let r := xss.length
      let c := (xss.headD []).length
      if r = 1 ∧ c = 1 then d0 ((xss.headD []).headD 0)
      else if r = 1 then d1 (xss.headD [])
      else if c = 1 then d1 (xss.map (fun row => row.headD 0))
      else d2 xss
  | d3 x =>
      let a := x.length
      let b := (x.headD []).length
      let c := ((x.headD []).headD []).length
      if a = 1 ∧ b = 1 ∧ c = 1 then d0 (((x.headD []).headD []).headD 0)
      else if a = 1 ∧ b = 1 then d1 ((x.headD []).headD [])
      else if a = 1 ∧ c = 1 then d1 ((x.headD []).map (fun row => row.headD 0))
      else if b = 1 ∧ c = 1 then d1 (x.map (fun m => (m.headD []).headD 0))
      else if a = 1 then d2 (x.headD [])
      else if b = 1 then d2 (x.map (fun m => m.headD []))
      else if c = 1 then d2 (x.map (fun m => m.map (fun row => row.headD 0)))
      else d3 x

end NDArr

/-- Project a rank-0 array. -/
def unD0 : NDArr → Option Scalar
  | .d0 x => some x
  | _ => none

/-- Project a rank-1 array. -/
def unD1 : NDArr → Option (List Scalar)
  | .d1 x => some x
  | _ => none

/-- Project a rank-2 array. -/
def unD2 : NDArr → Option (List (List Scalar))
  | .d2 x => some x
  | _ => none

/-- Project a rank-3 array. -/
def unD3 : NDArr → Option (List (List (List Scalar)))
  | .d3 x => some x
  | _ => none

/-- Model of `np.asarray` applied to a Python list of same-rank arrays:
stack them along a new leading axis.  `none` models the ill-typed
(heterogeneous-rank) case, which the modelled paths never hit. -/
def asarrayStack (xs : List NDArr) : Option NDArr :=
  match xs.mapM unD1 with
  | some rows => some (.d2 rows)
  | none =>
    match xs.mapM unD2 with
    | some mats => some (.d3 mats)
    | none =>
      match xs.mapM unD0 with
      | some vals => some (.d1 vals)
      | none => none

/-- Model of `np.concatenate` along axis 0 over a nonempty list of
same-rank arrays. -/
def concatenate0 (xs : List NDArr) : Option NDArr :=
  if xs.isEmpty then none
  else
    match xs.mapM unD1 with
    | some ls => some (.d1 ls.flatten)
    | none =>
      match xs.mapM unD2 with
      | some ls => some (.d2 ls.flatten)
      | none =>
        match xs.mapM unD3 with
        | some ls => some (.d3 ls.flatten)
        | none => none

/-- Keep exactly the rows paired with a `true` mask entry, in order
(the semantics of numpy boolean indexing on the leading axis). -/
def selectRows {α : Type} (mask : List Bool) (rows : List α) : List α :=
  ((mask.zip rows).filter (fun p => p.1)).map (fun p => p.2)

/-- Numpy boolean indexing `arr[mask]` on the leading axis; `none` models
the index error when the mask length does not match the leading extent. -/
def maskIndex (a : NDArr) (mask : List Bool) : Option NDArr :=
  match a with
  | .d0 _ => none
  | .d1 xs => if mask.length = xs.length then some (.d1 (selectRows mask xs)) else none
  | .d2 xss => if mask.length = xss.length then some (.d2 (selectRows mask xss)) else none
  | .d3 x => if mask.length = x.length then some (.d3 (selectRows mask x)) else none

/-- Model of `np.count_nonzero` on a boolean vector. -/
def countNonzero (bs : List Bool) : Nat :=
  (bs.filter (fun b => b)).length

/-- Column `j` of a rank-2 batch (`arr[:, j]` in numpy). -/
def npCol (xss : List (List Scalar)) (j : Nat) : List Scalar :=
  xss.map (fun row => row.getD j 0)

/-- The `model_params` dictionary entries read by `fcnet.py`. -/
structure ModelParams where
  data_shape : List Nat
  batch_size : Nat
  layer_sizes : List Nat
  weight_init_stddevs : List Scalar
  bias_init_consts : List Scalar
  dropouts : List Scalar
  num_classification_tasks : Nat
deriving DecidableEq, Repr

/-- Symbolic AST of the TensorFlow graph nodes that `build` assembles:
placeholders, `tf.truncated_normal`, `tf.constant`,
`model_ops.FullyConnectedLayer`, `tf.nn.relu`, `model_ops.Dropout`,
`tf.squeeze` and `model_ops.MultitaskLogits`. -/
inductive Tensor where
  | placeholder (name : String) (shape : List Nat)
  | truncatedNormal (shape : List Nat) (stddev : Scalar)
  | constant (value : Scalar) (shape : List Nat)
  | fullyConnectedLayer (tensor : Tensor) (size : Nat)
      (weight_init : Tensor) (bias_init : Tensor)
  | relu (t : Tensor)
  | dropout (t : Tensor) (rate : Scalar)
  | squeeze (t : Tensor)
  | multitaskLogits (t : Tensor) (num_tasks : Nat)
deriving DecidableEq, Repr

/-- Number of features: `model_params["data_shape"][0]`. -/
def numFeatures (p : ModelParams) : Nat :=
  p.data_shape.getD 0 0

/-- The `mol_features` placeholder created by both `build` methods:
shape `[batch_size, num_features]`. -/
def molFeaturesPH (p : ModelParams) : Tensor :=
  .placeholder "mol_features" [p.batch_size, numFeatures p]

/-- One iteration of the layer-stacking loop shared by the classifier's and
the regressor's `build` (fcnet.py lines 106-117 and 187-198): from the pair
(prev_layer, prev_layer_size) and the loop index `i`, produce
`Dropout(relu(FullyConnectedLayer(prev_layer, layer_sizes[i], ...)), dropouts[i])`
and the new previous size `layer_sizes[i]`. -/
def hiddenLayerStep (p : ModelParams) (acc : Tensor × Nat) (i : Nat) : Tensor × Nat :=
  let sz := p.layer_sizes.getD i 0
  let layer := Tensor.dropout
    (.relu (.fullyConnectedLayer acc.1 sz
      (.truncatedNormal [acc.2, sz] (p.weight_init_stddevs.getD i 0))
      (.constant (p.bias_init_consts.getD i 0) [sz])))
    (p.dropouts.getD i 0)
  (layer, sz)

/-- The layer-stacking loop of `build`: fold `hiddenLayerStep` over
`xrange(num_layers)` starting from `(mol_features, num_features)`. -/
def hiddenStack (p : ModelParams) (numLayers : Nat) : Tensor × Nat :=
  (List.range numLayers).foldl (hiddenLayerStep p) (molFeaturesPH p, numFeatures p)

/-- The attributes `TensorflowMultiTaskClassifier.build` sets on `self`. -/
structure ClassifierGraph where
  mol_features : Tensor
  output : Tensor
deriving DecidableEq, Repr

/-- The attributes `TensorflowMultiTaskRegressor.build` sets on `self`
(`output` is a Python list of tensors). -/
structure RegressorGraph where
  mol_features : Tensor
  output : List Tensor
deriving DecidableEq, Repr

/-- The set `{len(layer_sizes), len(weight_init_stddevs),
len(bias_init_consts), len(dropouts)}` built by both `build` methods. -/
def lengthsSet (p : ModelParams) : Finset Nat :=
  {p.layer_sizes.length, p.weight_init_stddevs.length,
   p.bias_init_consts.length, p.dropouts.length}

/-- TensorflowMultiTaskClassifier.build (fcnet.py lines 73-120).  Python
`assert` failures are modelled as `Except.error`.  `lengths_set.pop()` is
modelled as `len(layer_sizes)`: the preceding assert makes the set a
singleton, so pop returns the common length. -/
def buildClassifier (p : ModelParams) : Except String ClassifierGraph :=
  if p.data_shape.length ≠ 1 then .error "AssertionError"
  else if (lengthsSet p).card ≠ 1 then
    .error "AssertionError: All layer params must have same length."
  else
    let num_layers := p.layer_sizes.length
    if ¬ num_layers > 0 then .error "AssertionError: Must have some layers defined."
    else
      let st := hiddenStack p num_layers
      .ok ⟨molFeaturesPH p, .multitaskLogits st.1 p.num_classification_tasks⟩

/-- TensorflowMultiTaskRegressor.build (fcnet.py lines 154-207).  After the
loop the Python variables hold `prev_layer = st.1`,
`prev_layer_size = st.2` and the loop index `i = num_layers - 1`; the
output attribute is the singleton list
`[tf.squeeze(FullyConnectedLayer(prev_layer, layer_sizes[i],
truncated_normal([prev_layer_size, 1], stddevs[i]), constant(biases[i], [1])))]`. -/
def buildRegressor (p : ModelParams) : Except String RegressorGraph :=
  if p.data_shape.length ≠ 1 then .error "AssertionError"
  else if (lengthsSet p).card ≠ 1 then
    .error "AssertionError: All layer params must have same length."
  else
    let num_layers := p.layer_sizes.length
    if ¬ num_layers > 0 then .error "AssertionError: Must have some layers defined."
    else
      let st := hiddenStack p num_layers
      let i := num_layers - 1
      .ok ⟨molFeaturesPH p,
        [.squeeze (.fullyConnectedLayer st.1 (p.layer_sizes.getD i 0)
          (.truncatedNormal [st.2, 1] (p.weight_init_stddevs.getD i 0))
          (.constant (p.bias_init_consts.getD i 0) [1]))]⟩

/-- Structured form of the string keys of `orig_dict`: "mol_features",
"labels_%d" % task, "weights_%d" % task and "valid". -/
inductive FeedKey where
  | molFeatures
  | labels (task : Nat)
  | weights (task : Nat)
  | valid
deriving DecidableEq, Repr

/-- A value bound in the feed dictionary: a float array or (for "valid")
a boolean array. -/
inductive FeedVal where
  | arr (a : NDArr)
  | bools (bs : List Bool)
deriving DecidableEq, Repr

/-- The feed dictionary, in insertion order. -/
abbrev FeedDict := List (FeedKey × FeedVal)

/-- Python dict lookup on the association-list model (keys are inserted at
most once, so first match is the binding). -/
def dictLookup (k : FeedKey) : FeedDict → Option FeedVal
  | [] => none
  | (k', v) :: rest => if k = k' then some v else dictLookup k rest

/-- Modelled from the spec: `to_one_hot` from `deepchem.metrics` is not under
`src/`; per the spec it one-hot encodes a vector of binary class labels into
an `n x 2` array (`[1, 0]` for class 0, `[0, 1]` otherwise). -/
def to_one_hot (ys : List Scalar) : List (List Scalar) :=
  ys.map (fun y => if y = 0 then [1, 0] else [0, 1])

/-- The value bound to `labels_%d % task` by the classifier's
`construct_feed_dict`: `to_one_hot(y_b[:, task])` when `y_b` is given,
otherwise the dummy `np.squeeze(to_one_hot(np.zeros((batch_size,))))`. -/
def labelValC (p : ModelParams) (y : Option (List (List Scalar))) (task : Nat) : FeedVal :=
  match y with
  | some yb => .arr (.d2 (to_one_hot (npCol yb task)))
  | none => .arr (NDArr.squeeze (.d2 (to_one_hot (List.replicate p.batch_size 0))))

/-- The value bound to `labels_%d % task` by the regressor's
`construct_feed_dict`: `y_b[:, task]` when `y_b` is given, otherwise the
dummy `np.squeeze(np.zeros((batch_size,)))`. -/
def labelValR (p : ModelParams) (y : Option (List (List Scalar))) (task : Nat) : FeedVal :=
  match y with
  | some yb => .arr (.d1 (npCol yb task))
  | none => .arr (NDArr.squeeze (.d1 (List.replicate p.batch_size 0)))

/-- The value bound to `weights_%d % task` (identical in both classes):
`w_b[:, task]` when `w_b` is given, otherwise `np.ones((batch_size,))`. -/
def weightVal (p : ModelParams) (w : Option (List (List Scalar))) (task : Nat) : FeedVal :=
  match w with
  | some wb => .arr (.d1 (npCol wb task))
  | none => .arr (.d1 (List.replicate p.batch_size 1))

/-- The per-task loop of `construct_feed_dict`, shared by both classes:
starting from a dictionary `init`, insert `labels_task` and `weights_task`
for each `task` in `xrange(nt)`. -/
def taskLoop (labelVal weightVal : Nat → FeedVal) (nt : Nat) (init : FeedDict) : FeedDict :=
  (List.range nt).foldl
    (fun acc task => acc ++ [(.labels task, labelVal task), (.weights task, weightVal task)])
    init

/-- Modelled from the spec: `self._get_feed_dict` (defined on the base class
in `deepchem.models.tensorflow_models`, not under `src/`) maps the
string-keyed `orig_dict` one-to-one onto the framework's placeholder
bindings; on our structured keys it is the identity. -/
def getFeedDict (d : FeedDict) : FeedDict := d

/-- TensorflowMultiTaskClassifier.construct_feed_dict (fcnet.py lines
122-149).  `ids` is accepted and ignored, as in the source. -/
def constructFeedDictC (p : ModelParams) (nt : Nat) (X : NDArr)
    (y w : Option (List (List Scalar))) (ids : Option (List String)) : FeedDict :=
  getFeedDict
    (taskLoop (labelValC p y) (weightVal p w) nt [(.molFeatures, .arr X)]
      ++ [(.valid, .bools (List.replicate p.batch_size true))])

/-- TensorflowMultiTaskRegressor.construct_feed_dict (fcnet.py lines
209-236).  `ids` is accepted and ignored, as in the source. -/
def constructFeedDictR (p : ModelParams) (nt : Nat) (X : NDArr)
    (y w : Option (List (List Scalar))) (ids : Option (List String)) : FeedDict :=
  getFeedDict
    (taskLoop (labelValR p y) (weightVal p w) nt [(.molFeatures, .arr X)]
      ++ [(.valid, .bools (List.replicate p.batch_size true))])

/-- Lift numpy's `none`-modelled errors into the `Except` monad. -/
def optToExcept {α : Type} (o : Option α) (msg : String) : Except String α :=
  match o with
  | some a => .ok a
  | none => .error msg

/-- The fed float array bound to `k` in a feed dictionary (a TensorFlow
placeholder evaluates to its fed value during `session.run`). -/
def fedArr (fd : FeedDict) (k : FeedKey) : NDArr :=
  match dictLookup k fd with
  | some (.arr a) => a
  | _ => .d1 []

/-- The boolean array bound to "valid" in a feed dictionary
(`feed_dict[self.valid.name]`, fcnet.py line 293). -/
def validBools (fd : FeedDict) : List Bool :=
  match dictLookup .valid fd with
  | some (.bools bs) => bs
  | _ => []

/-- Modelled from the spec: the framework's
`session.run(self.output + self.labels + self.weights, feed_dict)`
(the session object and the per-task `labels`/`weights` placeholders are
created by the base class in `deepchem.models.tensorflow_models`, not under
`src/`).  Each output tensor evaluates to the framework-computed value
`outputEval t`; each fed placeholder evaluates to its fed array, so the
returned list is the concatenation of the output values, the `num_tasks`
fed label arrays and the `num_tasks` fed weight arrays, in that order. -/
def sessionRunStep (outputs : List Tensor) (outputEval : Tensor → NDArr)
    (nt : Nat) (fd : FeedDict) : List NDArr :=
  outputs.map outputEval
    ++ (List.range nt).map (fun k => fedArr fd (.labels k))
    ++ (List.range nt).map (fun k => fedArr fd (.weights k))

/-- The rank-dispatching transpose step of `predict_on_batch` (fcnet.py
lines 281-292): transpose output and labels with axes `(1,0,2)` when both
have rank 3, with `(1,0)` when both have rank 2, and raise `ValueError` for
any other rank combination; on the non-raising paths the weights array is
then transposed with `(1,0)` (line 292). -/
def reshapeStep (bo bl bw : NDArr) : Except String (NDArr × NDArr × NDArr) :=
  if bo.ndim = 3 ∧ bl.ndim = 3 then
    match bo.transpose102, bl.transpose102, bw.transpose10 with
    | some o, some l, some w => .ok (o, l, w)
    | _, _, _ => .error "ValueError: axes do not match array"
  else if bo.ndim = 2 ∧ bl.ndim = 2 then
    match bo.transpose10, bl.transpose10, bw.transpose10 with
    | some o, some l, some w => .ok (o, l, w)
    | _, _, _ => .error "ValueError: axes do not match array"
  else .error "ValueError: Unrecognized rank combination for output and labels"

/-- The validity-filter step of `predict_on_batch` (fcnet.py lines 293-298):
when `np.count_nonzero(~valid)` is nonzero, boolean-index each of the three
arrays by `valid`; otherwise leave them unchanged. -/
def validFilterStep (valid : List Bool) (t : NDArr × NDArr × NDArr) :
    Except String (NDArr × NDArr × NDArr) :=
  if countNonzero (valid.map (fun b => !b)) ≠ 0 then
    match maskIndex t.1 valid, maskIndex t.2.1 valid, maskIndex t.2.2 valid with
    | some a, some b, some c => .ok (a, b, c)
    | _, _, _ => .error "IndexError: boolean index did not match array"
  else .ok t

/-- The reshape-and-filter step of `predict_on_batch` (fcnet.py lines
277-301 and 307-309): slice the session results into output, labels and
weights stacks, transpose, filter by the validity mask, then return
`np.copy(np.squeeze(np.concatenate(labels)))` — the source returns only the
labels array (line 309). -/
def reshapeFilterStep (nt : Nat) (fd : FeedDict) (data : List NDArr) :
    Except String NDArr := do
  let batch_output ← optToExcept (asarrayStack (data.take nt)) "np.asarray failed"
  let batch_labels ← optToExcept (asarrayStack ((data.drop nt).take nt)) "np.asarray failed"
  let batch_weights ← optToExcept (asarrayStack ((data.drop (2 * nt)).take nt)) "np.asarray failed"
  let (batch_output, batch_labels, batch_weights) ←
    reshapeStep batch_output batch_labels batch_weights
  let valid := validBools fd
  let (batch_output, batch_labels, batch_weights) ←
    validFilterStep valid (batch_output, batch_labels, batch_weights)
  let _output := [batch_output]
  let labels := [batch_labels]
  let _weights := [batch_weights]
  let labelsArr ← optToExcept (concatenate0 labels) "np.concatenate failed"
  .ok (NDArr.squeeze labelsArr)

/-- TensorflowMultiTaskRegressor.predict_on_batch (fcnet.py lines 238-309):
construct the feed dictionary from `X` alone (`y_b`, `w_b`, `ids_b` default
to None), run the graph, then reshape and filter.  `outputs` is the model's
`self.output` list and `outputEval` the framework's evaluation of graph
tensors on this batch. -/
def predictOnBatchR (p : ModelParams) (nt : Nat) (outputs : List Tensor)
    (outputEval : Tensor → NDArr) (X : NDArr) : Except String NDArr :=
  let feed_dict := constructFeedDictR p nt X none none none
  let data := sessionRunStep outputs outputEval nt feed_dict
  reshapeFilterStep nt feed_dict data

/-- The three per-batch phases of `predict_on_batch`, in source order. -/
inductive Phase where
  | feedDictConstructed
  | graphExecuted
  | reshapedAndFiltered
deriving DecidableEq, Repr

/-- `predict_on_batch` instrumented with an event trace: one event is
recorded as each of the three phases runs. -/
def predictOnBatchTracedR (p : ModelParams) (nt : Nat) (outputs : List Tensor)
    (outputEval : Tensor → NDArr) (X : NDArr) : Except String NDArr × List Phase :=
  let feed_dict := constructFeedDictR p nt X none none none
  let tr1 := [Phase.feedDictConstructed]
  let data := sessionRunStep outputs outputEval nt feed_dict
  let tr2 := tr1 ++ [Phase.graphExecuted]
  let res := reshapeFilterStep nt feed_dict data
  (res, tr2 ++ [Phase.reshapedAndFiltered])

/-! Sample configurations used in concrete evaluations. -/

/-- A single-task sample configuration: two features, batch size 2, one
hidden layer of width 2. -/
def sampleParams : ModelParams := ⟨[2], 2, [2], [1], [1], [1], 1⟩

/-- A sample input batch of shape `batch_size x num_features = 2 x 2`. -/
def sampleX : NDArr := .d2 [[1, 2], [3, 4]]

/-! Theorems. -/

/-- C9: `construct_feed_dict` is independent of its `ids_b` argument — for
both the classifier and the regressor, any two values of `ids_b` (with the
other arguments fixed) yield equal feed dictionaries. -/
theorem spec_c9_feed_dict_ignores_ids (p : ModelParams) (nt : Nat) (X : NDArr)
    (y w : Option (List (List Scalar))) (ids ids' : Option (List String)) :
    constructFeedDictC p nt X y w ids = constructFeedDictC p nt X y w ids'
      ∧ constructFeedDictR p nt X y w ids = constructFeedDictR p nt X y w ids' :=
  ⟨rfl, rfl⟩

/-- C7: within `predict_on_batch` the three phases run sequentially in the
fixed order feed-dictionary construction, graph execution, reshape-and-filter
— the trace records exactly these three events in that order, the graph is
executed with the constructed feed dictionary, the reshape-and-filter step is
applied to the execution results, and the traced run computes the same value
as `predict_on_batch`. -/
theorem spec_c7_phases_sequential (p : ModelParams) (nt : Nat)
    (outputs : List Tensor) (outputEval : Tensor → NDArr) (X : NDArr) :
    predictOnBatchTracedR p nt outputs outputEval X
      = (reshapeFilterStep nt (constructFeedDictR p nt X none none none)
           (sessionRunStep outputs outputEval nt
             (constructFeedDictR p nt X none none none)),
         [Phase.feedDictConstructed, Phase.graphExecuted, Phase.reshapedAndFiltered])
      ∧ (predictOnBatchTracedR p nt outputs outputEval X).1
          = predictOnBatchR p nt outputs outputEval X :=
  ⟨rfl, rfl⟩

/-- C1 (code bug): on a concrete batch, `predict_on_batch` returns only the
squeezed labels array — which, since `construct_feed_dict` is called with
`y_b = None`, is the fed dummy zero array — and not the graph's output
values (here `[5, 6]`), contradicting the function's own docstring, which
promises a tuple of output, labels and weights. -/
theorem spec_c1_returns_fed_dummy_labels :
    predictOnBatchR sampleParams 1 [Tensor.placeholder "o" []]
        (fun _ => NDArr.d1 [5, 6]) sampleX = .ok (.d1 [0, 0])
      ∧ labelValR sampleParams none 0 = .arr (.d1 [0, 0])
      ∧ NDArr.d1 [0, 0] ≠ NDArr.d1 [5, 6] :=
  ⟨rfl, rfl, by decide⟩

/-- A two-task sample configuration (same shape parameters as
`sampleParams`, used with `num_tasks = 2`). -/
def sampleParams2 : ModelParams := ⟨[2], 2, [2], [1], [1], [1], 2⟩

/-- C6 (code bug): the regressor's `build` sets `self.output` to a
single-element list regardless of the number of tasks, so for
`num_tasks = 2` the output list has length 1, not 2; consequently
`predict_on_batch`'s slice `data[:num_tasks]` of the session results
captures the one output value together with the first fed label array
rather than two model outputs. -/
theorem spec_c6_output_list_is_singleton :
    (buildRegressor sampleParams2).map (fun g => g.output.length) = .ok 1
      ∧ (1 : Nat) ≠ 2
      ∧ (sessionRunStep [Tensor.placeholder "o" []] (fun _ => NDArr.d1 [5, 6]) 2
           (constructFeedDictR sampleParams2 2 sampleX none none none)).take 2
          = [NDArr.d1 [5, 6], NDArr.d1 [0, 0]]
      ∧ fedArr (constructFeedDictR sampleParams2 2 sampleX none none none) (.labels 0)
          = NDArr.d1 [0, 0] :=
  ⟨rfl, by decide, rfl, rfl⟩

/-! Lookup lemmas for the feed-dictionary association list. -/

theorem dictLookup_append (k : FeedKey) (l1 l2 : FeedDict) :
    dictLookup k (l1 ++ l2) = (dictLookup k l1).or (dictLookup k l2) := by
  induction l1 with
  | nil => simp [dictLookup]
  | cons h t ih =>
    obtain ⟨k', v⟩ := h
    by_cases hk : k = k' <;> simp [dictLookup, hk, ih]

theorem taskLoop_succ (lv wv : Nat → FeedVal) (n : Nat) (init : FeedDict) :
    taskLoop lv wv (n + 1) init
      = taskLoop lv wv n init ++ [(.labels n, lv n), (.weights n, wv n)] := by
  simp [taskLoop, List.range_succ]

theorem taskLoop_eq_append (lv wv : Nat → FeedVal) (nt : Nat) (init : FeedDict) :
    taskLoop lv wv nt init = init ++ taskLoop lv wv nt [] := by
  induction nt with
  | zero => simp [taskLoop]
  | succ n ih => rw [taskLoop_succ, taskLoop_succ, ih, List.append_assoc]

theorem dictLookup_taskLoop_labels (lv wv : Nat → FeedVal) (nt k : Nat) :
    dictLookup (.labels k) (taskLoop lv wv nt [])
      = if k < nt then some (lv k) else none := by
  induction nt with
  | zero => simp [taskLoop, dictLookup]
  | succ n ih =>
    rw [taskLoop_succ, dictLookup_append, ih]
    by_cases hk : k < n
    · simp [hk, Nat.lt_succ_of_lt hk]
    · by_cases he : k = n
      · subst he
        simp [dictLookup, hk]
      · have hk' : ¬ k < n + 1 := by omega
        simp [hk, hk', dictLookup, he]

theorem dictLookup_taskLoop_weights (lv wv : Nat → FeedVal) (nt k : Nat) :
    dictLookup (.weights k) (taskLoop lv wv nt [])
      = if k < nt then some (wv k) else none := by
  induction nt with
  | zero => simp [taskLoop, dictLookup]
  | succ n ih =>
    rw [taskLoop_succ, dictLookup_append, ih]
    by_cases hk : k < n
    · simp [hk, Nat.lt_succ_of_lt hk]
    · by_cases he : k = n
      · subst he
        simp [dictLookup, hk]
      · have hk' : ¬ k < n + 1 := by omega
        simp [hk, hk', dictLookup, he]

theorem dictLookup_taskLoop_molFeatures (lv wv : Nat → FeedVal) (nt : Nat) :
    dictLookup .molFeatures (taskLoop lv wv nt []) = none := by
  induction nt with
  | zero => simp [taskLoop, dictLookup]
  | succ n ih =>
    rw [taskLoop_succ, dictLookup_append, ih]
    simp [dictLookup]

theorem dictLookup_taskLoop_valid (lv wv : Nat → FeedVal) (nt : Nat) :
    dictLookup .valid (taskLoop lv wv nt []) = none := by
  induction nt with
  | zero => simp [taskLoop, dictLookup]
  | succ n ih =>
    rw [taskLoop_succ, dictLookup_append, ih]
    simp [dictLookup]

theorem constructFeedDictC_eq (p : ModelParams) (nt : Nat) (X : NDArr)
    (y w : Option (List (List Scalar))) (ids : Option (List String)) :
    constructFeedDictC p nt X y w ids
      = ([(.molFeatures, .arr X)] ++ taskLoop (labelValC p y) (weightVal p w) nt [])
          ++ [(.valid, .bools (List.replicate p.batch_size true))] := by
  rw [constructFeedDictC, getFeedDict, taskLoop_eq_append]

theorem constructFeedDictR_eq (p : ModelParams) (nt : Nat) (X : NDArr)
    (y w : Option (List (List Scalar))) (ids : Option (List String)) :
    constructFeedDictR p nt X y w ids
      = ([(.molFeatures, .arr X)] ++ taskLoop (labelValR p y) (weightVal p w) nt [])
          ++ [(.valid, .bools (List.replicate p.batch_size true))] := by
  rw [constructFeedDictR, getFeedDict, taskLoop_eq_append]

/-- C3: the feed dictionary binds `mol_features` to `X_b`, and for each task
index `k < num_tasks` binds `labels_k` (one-hot of column `k` of `y_b` for
the classifier, raw column `k` for the regressor; a dummy derived from a
zero vector of length `batch_size` when `y_b` is absent) and `weights_k`
(column `k` of `w_b`, or an all-ones vector of length `batch_size` when
`w_b` is absent). -/
theorem spec_c3_feed_dict_bindings (p : ModelParams) (nt : Nat) (X : NDArr)
    (y w : Option (List (List Scalar))) (ids : Option (List String)) (k : Nat)
    (hk : k < nt) :
    dictLookup .molFeatures (constructFeedDictC p nt X y w ids) = some (.arr X)
  ∧ dictLookup .molFeatures (constructFeedDictR p nt X y w ids) = some (.arr X)
  ∧ dictLookup (.labels k) (constructFeedDictC p nt X y w ids)
      = some (match y with
          | some yb => .arr (.d2 (to_one_hot (npCol yb k)))
          | none => .arr (NDArr.squeeze (.d2 (to_one_hot (List.replicate p.batch_size 0)))))
  ∧ dictLookup (.labels k) (constructFeedDictR p nt X y w ids)
      = some (match y with
          | some yb => .arr (.d1 (npCol yb k))
          | none => .arr (NDArr.squeeze (.d1 (List.replicate p.batch_size 0))))
  ∧ dictLookup (.weights k) (constructFeedDictC p nt X y w ids)
      = some (match w with
          | some wb => .arr (.d1 (npCol wb k))
          | none => .arr (.d1 (List.replicate p.batch_size 1)))
  ∧ dictLookup (.weights k) (constructFeedDictR p nt X y w ids)
      = some (match w with
          | some wb => .arr (.d1 (npCol wb k))
          | none => .arr (.d1 (List.replicate p.batch_size 1))) := by
  refine ⟨?_, ?_, ?_, ?_, ?_, ?_⟩
  · rw [constructFeedDictC_eq]
    simp [dictLookup_append, dictLookup]
  · rw [constructFeedDictR_eq]
    simp [dictLookup_append, dictLookup]
  · rw [constructFeedDictC_eq]
    simp [dictLookup_append, dictLookup, dictLookup_taskLoop_labels, hk]
    cases y <;> rfl
  · rw [constructFeedDictR_eq]
    simp [dictLookup_append, dictLookup, dictLookup_taskLoop_labels, hk]
    cases y <;> rfl
  · rw [constructFeedDictC_eq]
    simp [dictLookup_append, dictLookup, dictLookup_taskLoop_weights, hk]
    cases w <;> rfl
  · rw [constructFeedDictR_eq]
    simp [dictLookup_append, dictLookup, dictLookup_taskLoop_weights, hk]
    cases w <;> rfl

/-- Closed witness for C3 at a concrete configuration: task index 0 of a
single-task regressor/classifier pair with `y_b` and `w_b` absent. -/
theorem spec_c3_feed_dict_bindings_witness :
    0 < 1
      ∧ dictLookup .molFeatures (constructFeedDictC sampleParams 1 sampleX none none none)
          = some (.arr sampleX) :=
  ⟨by decide,
   (spec_c3_feed_dict_bindings sampleParams 1 sampleX none none none 0 (by decide)).1⟩

theorem countNonzero_replicate_false (n : Nat) :
    countNonzero (List.replicate n false) = 0 := by
  induction n with
  | zero => rfl
  | succ m ih => simp [countNonzero, List.replicate_succ]

/-- C8: both `construct_feed_dict` methods bind `valid` to an all-True
boolean vector of length `batch_size`; consequently the guard
`np.count_nonzero(~valid)` of the validity-filter branch in
`predict_on_batch` is zero, and the filter branch leaves every triple of
batch arrays unchanged — it never executes. -/
theorem spec_c8_valid_all_true_filter_never_runs (p : ModelParams) (nt : Nat)
    (X : NDArr) (y w : Option (List (List Scalar))) (ids : Option (List String)) :
    validBools (constructFeedDictC p nt X y w ids) = List.replicate p.batch_size true
  ∧ validBools (constructFeedDictR p nt X y w ids) = List.replicate p.batch_size true
  ∧ countNonzero ((validBools (constructFeedDictR p nt X y w ids)).map (fun b => !b)) = 0
  ∧ ∀ t : NDArr × NDArr × NDArr,
      validFilterStep (validBools (constructFeedDictR p nt X y w ids)) t = .ok t := by
  have hC : validBools (constructFeedDictC p nt X y w ids)
      = List.replicate p.batch_size true := by
    rw [validBools, constructFeedDictC_eq]
    simp [dictLookup_append, dictLookup, dictLookup_taskLoop_valid]
  have hR : validBools (constructFeedDictR p nt X y w ids)
      = List.replicate p.batch_size true := by
    rw [validBools, constructFeedDictR_eq]
    simp [dictLookup_append, dictLookup, dictLookup_taskLoop_valid]
  have hcount : countNonzero
      ((validBools (constructFeedDictR p nt X y w ids)).map (fun b => !b)) = 0 := by
    rw [hR]
    simpa [List.map_replicate] using countNonzero_replicate_false p.batch_size
  refine ⟨hC, hR, hcount, fun t => ?_⟩
  simp [validFilterStep, hcount]

theorem finset_four_card_eq_one (a b c d : Nat) :
    ({a, b, c, d} : Finset Nat).card = 1 ↔ b = a ∧ c = a ∧ d = a := by
  constructor
  · intro h
    obtain ⟨x, hx⟩ := Finset.card_eq_one.mp h
    have ha : a = x := by
      have hm : a ∈ ({a, b, c, d} : Finset Nat) := by simp
      rw [hx] at hm
      simpa using hm
    have hb : b = x := by
      have hm : b ∈ ({a, b, c, d} : Finset Nat) := by simp
      rw [hx] at hm
      simpa using hm
    have hc : c = x := by
      have hm : c ∈ ({a, b, c, d} : Finset Nat) := by simp
      rw [hx] at hm
      simpa using hm
    have hd : d = x := by
      have hm : d ∈ ({a, b, c, d} : Finset Nat) := by simp
      rw [hx] at hm
      simpa using hm
    omega
  · rintro ⟨rfl, rfl, rfl⟩
    simp

/-- C10: both `build` methods raise `AssertionError` unless `data_shape` has
length exactly 1, the four per-layer lists have a common length, and that
common length is positive; under exactly these preconditions every assertion
passes and graph construction proceeds (the build returns a graph). -/
theorem spec_c10_build_assertions (p : ModelParams) :
    ((∃ g, buildClassifier p = .ok g)
        ↔ p.data_shape.length = 1
          ∧ p.weight_init_stddevs.length = p.layer_sizes.length
          ∧ p.bias_init_consts.length = p.layer_sizes.length
          ∧ p.dropouts.length = p.layer_sizes.length
          ∧ 0 < p.layer_sizes.length)
  ∧ ((∃ g, buildRegressor p = .ok g)
        ↔ p.data_shape.length = 1
          ∧ p.weight_init_stddevs.length = p.layer_sizes.length
          ∧ p.bias_init_consts.length = p.layer_sizes.length
          ∧ p.dropouts.length = p.layer_sizes.length
          ∧ 0 < p.layer_sizes.length) := by
  have hcard := finset_four_card_eq_one p.layer_sizes.length
    p.weight_init_stddevs.length p.bias_init_consts.length p.dropouts.length
  constructor
  · rw [buildClassifier]
    split_ifs with h1 h2
    · simp only [reduceCtorEq, exists_false, false_iff]
      rintro ⟨hA, -, -, -, -⟩
      exact h1 hA
    · simp only [reduceCtorEq, exists_false, false_iff]
      rintro ⟨-, hB, hC, hD, -⟩
      exact h2 (hcard.mpr ⟨hB, hC, hD⟩)
    · dsimp only
      split_ifs with h3
      · have hlen := hcard.mp (not_not.mp h2)
        constructor
        · intro _
          exact ⟨not_not.mp h1, hlen.1, hlen.2.1, hlen.2.2, h3⟩
        · intro _
          exact ⟨_, rfl⟩
      · constructor
        · rintro ⟨g, hg⟩
          cases hg
        · rintro ⟨-, -, -, -, hE⟩
          exact absurd hE h3
  · rw [buildRegressor]
    split_ifs with h1 h2
    · simp only [reduceCtorEq, exists_false, false_iff]
      rintro ⟨hA, -, -, -, -⟩
      exact h1 hA
    · simp only [reduceCtorEq, exists_false, false_iff]
      rintro ⟨-, hB, hC, hD, -⟩
      exact h2 (hcard.mpr ⟨hB, hC, hD⟩)
    · dsimp only
      split_ifs with h3
      · have hlen := hcard.mp (not_not.mp h2)
        constructor
        · intro _
          exact ⟨not_not.mp h1, hlen.1, hlen.2.1, hlen.2.2, h3⟩
        · intro _
          exact ⟨_, rfl⟩
      · constructor
        · rintro ⟨g, hg⟩
          cases hg
        · rintro ⟨-, -, -, -, hE⟩
          exact absurd hE h3

/-- Follows the words of claim C2 (a refinement-side definition, to be
compared with the source-derived `hiddenStack`): layer 0 applies a
fully-connected transformation of size `layer_sizes[0]` to the
`mol_features` input, then the ReLU nonlinearity, then dropout at rate
`dropouts[0]`; layer `i+1` applies the same three operations, with the
index-`i+1` parameters, to layer `i`'s output. -/
def claimedLayer (p : ModelParams) : Nat → Tensor
  | 0 =>
      .dropout (.relu (.fullyConnectedLayer (molFeaturesPH p) (p.layer_sizes.getD 0 0)
        (.truncatedNormal [numFeatures p, p.layer_sizes.getD 0 0]
          (p.weight_init_stddevs.getD 0 0))
        (.constant (p.bias_init_consts.getD 0 0) [p.layer_sizes.getD 0 0])))
        (p.dropouts.getD 0 0)
  | i + 1 =>
      .dropout (.relu (.fullyConnectedLayer (claimedLayer p i) (p.layer_sizes.getD (i + 1) 0)
        (.truncatedNormal [p.layer_sizes.getD i 0, p.layer_sizes.getD (i + 1) 0]
          (p.weight_init_stddevs.getD (i + 1) 0))
        (.constant (p.bias_init_consts.getD (i + 1) 0) [p.layer_sizes.getD (i + 1) 0])))
        (p.dropouts.getD (i + 1) 0)

theorem hiddenStack_succ (p : ModelParams) (n : Nat) :
    hiddenStack p (n + 1) = hiddenLayerStep p (hiddenStack p n) n := by
  simp [hiddenStack, List.range_succ]

theorem hiddenStack_eq_claimedLayer (p : ModelParams) (n : Nat) :
    hiddenStack p (n + 1) = (claimedLayer p n, p.layer_sizes.getD n 0) := by
  induction n with
  | zero =>
    rw [hiddenStack_succ]
    simp [hiddenStack, hiddenLayerStep, claimedLayer]
  | succ m ih =>
    rw [hiddenStack_succ, ih]
    simp [hiddenLayerStep, claimedLayer]

/-- C2: for every configuration whose four per-layer parameter lists share a
positive length `n` (and whose `data_shape` is one-dimensional, as the
preceding assertion requires), both `build` methods construct exactly the
`n`-layer dense-ReLU-dropout stack described by `claimedLayer`: layer 0
reads `mol_features`, each later layer reads the previous layer's output,
and the classifier caps the stack with multitask logits while the regressor
caps it with a squeezed one-unit dense layer. -/
theorem spec_c2_layer_stack (p : ModelParams) (n : Nat)
    (hds : p.data_shape.length = 1)
    (h1 : p.layer_sizes.length = n) (h2 : p.weight_init_stddevs.length = n)
    (h3 : p.bias_init_consts.length = n) (h4 : p.dropouts.length = n)
    (hn : 0 < n) :
    buildClassifier p = .ok ⟨molFeaturesPH p,
        .multitaskLogits (claimedLayer p (n - 1)) p.num_classification_tasks⟩
  ∧ buildRegressor p = .ok ⟨molFeaturesPH p,
        [.squeeze (.fullyConnectedLayer (claimedLayer p (n - 1))
          (p.layer_sizes.getD (n - 1) 0)
          (.truncatedNormal [p.layer_sizes.getD (n - 1) 0, 1]
            (p.weight_init_stddevs.getD (n - 1) 0))
          (.constant (p.bias_init_consts.getD (n - 1) 0) [1]))]⟩ := by
  obtain ⟨m, rfl⟩ : ∃ m, n = m + 1 := ⟨n - 1, (Nat.succ_pred_eq_of_pos hn).symm⟩
  have hcard : (lengthsSet p).card = 1 := by
    rw [lengthsSet, h1, h2, h3, h4]
    simp
  constructor
  · rw [buildClassifier, if_neg (by simp [hds]), if_neg (by simp [hcard])]
    dsimp only
    rw [if_neg (by simp [h1]), h1, hiddenStack_eq_claimedLayer]
    simp
  · rw [buildRegressor, if_neg (by simp [hds]), if_neg (by simp [hcard])]
    dsimp only
    rw [if_neg (by simp [h1]), h1, hiddenStack_eq_claimedLayer]
    simp

/-- A two-layer sample configuration for the C2 witness. -/
def sampleParamsDeep : ModelParams := ⟨[3], 2, [4, 5], [1, 2], [3, 4], [1, 1], 2⟩

/-- Closed witness for C2 at the concrete two-layer configuration. -/
theorem spec_c2_layer_stack_witness :
    0 < 2
      ∧ buildClassifier sampleParamsDeep = .ok ⟨molFeaturesPH sampleParamsDeep,
          .multitaskLogits (claimedLayer sampleParamsDeep 1)
            sampleParamsDeep.num_classification_tasks⟩ :=
  ⟨by decide,
   (spec_c2_layer_stack sampleParamsDeep 2 rfl rfl rfl rfl rfl (by decide)).1⟩

/-- C5: within `predict_on_batch`, the stacked task-major output and label
arrays are transposed to batch-major form iff their ranks are both 3 (axes
`(1,0,2)`) or both 2 (axes `(1,0)`); for any other rank combination a
`ValueError` is raised; on the non-raising paths the weights array is
transposed with axes `(1,0)`. -/
theorem spec_c5_rank_dispatch :
    (∀ (a b : List (List (List Scalar))) (w : List (List Scalar)),
        reshapeStep (.d3 a) (.d3 b) (.d2 w)
          = .ok (.d3 (transposeLL a), .d3 (transposeLL b), .d2 (transposeLL w)))
  ∧ (∀ (a b w : List (List Scalar)),
        reshapeStep (.d2 a) (.d2 b) (.d2 w)
          = .ok (.d2 (transposeLL a), .d2 (transposeLL b), .d2 (transposeLL w)))
  ∧ (∀ bo bl bw : NDArr,
        ¬(bo.ndim = 3 ∧ bl.ndim = 3) → ¬(bo.ndim = 2 ∧ bl.ndim = 2) →
        ∃ msg, reshapeStep bo bl bw = .error msg) := by
  refine ⟨fun a b w => ?_, fun a b w => ?_, fun bo bl bw h3 h2 => ?_⟩
  · simp [reshapeStep, NDArr.ndim, NDArr.transpose102, NDArr.transpose10]
  · simp [reshapeStep, NDArr.ndim, NDArr.transpose102, NDArr.transpose10]
  · simp only [reshapeStep, if_neg h3, if_neg h2]
    exact ⟨_, rfl⟩

/-- Closed witness for C5: a rank-1/rank-1 combination raises `ValueError`. -/
theorem spec_c5_rank_dispatch_witness :
    ∃ msg, reshapeStep (.d1 [1]) (.d1 [2]) (.d1 [3]) = .error msg :=
  spec_c5_rank_dispatch.2.2 (.d1 [1]) (.d1 [2]) (.d1 [3])
    (by simp [NDArr.ndim]) (by simp [NDArr.ndim])

theorem selectRows_cons {α : Type} (b : Bool) (t : List Bool) (x : α) (xs : List α) :
    selectRows (b :: t) (x :: xs)
      = if b then x :: selectRows t xs else selectRows t xs := by
  by_cases hb : b <;> simp [selectRows, hb]

theorem selectRows_all_true {α : Type} (mask : List Bool) (l : List α)
    (hall : ∀ b ∈ mask, b = true) (hlen : mask.length = l.length) :
    selectRows mask l = l := by
  induction mask generalizing l with
  | nil =>
    cases l with
    | nil => rfl
    | cons x xs => simp at hlen
  | cons b t ih =>
    cases l with
    | nil => simp at hlen
    | cons x xs =>
      have hb : b = true := hall b (by simp)
      subst hb
      rw [selectRows_cons, if_pos rfl,
        ih xs (fun c hc => hall c (List.mem_cons_of_mem _ hc)) (by simpa using hlen)]

theorem all_true_of_no_false (valid : List Bool)
    (h : countNonzero (valid.map (fun b => !b)) = 0) : ∀ b ∈ valid, b = true := by
  intro b hb
  have h2 : (valid.map (fun b => !b)).filter (fun x => x) = [] :=
    List.length_eq_zero.mp h
  have h3 := List.filter_eq_nil_iff.mp h2
  have hmem : (!b) ∈ valid.map (fun b => !b) := List.mem_map_of_mem _ hb
  have h4 := h3 _ hmem
  cases b
  · simp at h4
  · rfl

/-- C4: the validity-filter step of `predict_on_batch` retains exactly the
rows of the output, label and weight batch arrays whose entry in the valid
mask is `true` and excludes every row whose entry is `false` — both when the
guard takes the boolean-indexing branch and when it skips it (an all-true
mask), and for the rank-2 as well as the rank-3 batch shapes. -/
theorem spec_c4_validity_mask_filter (valid : List Bool) :
    (∀ (o l w : List (List Scalar)),
        valid.length = o.length → valid.length = l.length → valid.length = w.length →
        validFilterStep valid (.d2 o, .d2 l, .d2 w)
          = .ok (.d2 (selectRows valid o), .d2 (selectRows valid l),
              .d2 (selectRows valid w)))
  ∧ (∀ (o l : List (List (List Scalar))) (w : List (List Scalar)),
        valid.length = o.length → valid.length = l.length → valid.length = w.length →
        validFilterStep valid (.d3 o, .d3 l, .d2 w)
          = .ok (.d3 (selectRows valid o), .d3 (selectRows valid l),
              .d2 (selectRows valid w))) := by
  constructor
  · intro o l w ho hl hw
    by_cases hg : countNonzero (valid.map (fun b => !b)) ≠ 0
    · simp [validFilterStep, hg, maskIndex, ← ho, ← hl, ← hw]
    · have hall := all_true_of_no_false valid (not_not.mp hg)
      rw [validFilterStep, if_neg hg, selectRows_all_true valid o hall ho,
        selectRows_all_true valid l hall hl, selectRows_all_true valid w hall hw]
  · intro o l w ho hl hw
    by_cases hg : countNonzero (valid.map (fun b => !b)) ≠ 0
    · simp [validFilterStep, hg, maskIndex, ← ho, ← hl, ← hw]
    · have hall := all_true_of_no_false valid (not_not.mp hg)
      rw [validFilterStep, if_neg hg, selectRows_all_true valid o hall ho,
        selectRows_all_true valid l hall hl, selectRows_all_true valid w hall hw]

/-- Closed witness for C4: with mask `[true, false]` the second row of each
array is excluded and the first retained. -/
theorem spec_c4_validity_mask_filter_witness :
    validFilterStep [true, false] (.d2 [[1], [2]], .d2 [[3], [4]], .d2 [[5], [6]])
      = .ok (.d2 [[1]], .d2 [[3]], .d2 [[5]]) :=
  Eq.trans
    ((spec_c4_validity_mask_filter [true, false]).1 [[1], [2]] [[3], [4]] [[5], [6]]
      rfl rfl rfl)
    rfl

end Fcnet
